import Mathlib

/-!
Shallow embedding of the ecom-tools reconciliation engine
(`src/services/order_service.py` and `src/services/income_service.py`).

Tables are modelled as a list of column names plus a list of rows, each row a
list of cell values.  A cell value is a string, an integer, a float (modelled
as a rational, since every claim under scrutiny is algebraic and none depends
on IEEE rounding), or a null (pandas `NaN`).  pandas' `astype(str)` and
`pd.to_numeric(..., errors="coerce")` are embedded as `Value.astypeStr` and
`Value.toNumeric`.  In pandas, selecting an absent column raises `KeyError`;
the embedding totalises cell lookup with `Value.vNull` and the theorems carry
column-presence hypotheses wherever the corresponding Python would raise.
-/

namespace EcomTools

/-- `str.lower()` on a string, character by character (kernel-computable
counterpart of `String.toLower`). -/
def strLower (s : String) : String :=
  ⟨s.data.map Char.toLower⟩

/-- `str.strip()` on a string: drop whitespace from both ends
(kernel-computable counterpart of `String.trim`). -/
def strTrim (s : String) : String :=
  ⟨((s.data.dropWhile Char.isWhitespace).reverse.dropWhile Char.isWhitespace).reverse⟩

/-- Lexicographic `≤` on character lists (kernel-computable counterpart of
`String.le`, used to sort region keys). -/
def charListLe : List Char → List Char → Bool
  | [], _ => true
  | _ :: _, [] => false
  | a :: as, b :: bs => if a < b then true else if b < a then false else charListLe as bs

/-- A spreadsheet cell value as pandas sees it. -/
inductive Value where
  | vStr (s : String)
  | vInt (n : Int)
  | vFloat (q : ℚ)
  | vNull
deriving DecidableEq

/-- `astype(str)` on a cell: strings unchanged, int64 cells render without a
decimal point, float64 cells render with one (`123.0`; the exact decimal
rendering of non-integer floats is not relied upon by any theorem below), and
`NaN` renders as the string `"nan"`. -/
def Value.astypeStr : Value → String
  | .vStr s => s
  | .vInt n => toString n
  | .vFloat q => if q.den = 1 then toString q.num ++ ".0" else toString q
  | .vNull => "nan"

/-- Digits of a base-10 literal. -/
def parseDigits (cs : List Char) : Option Nat :=
  if cs.all Char.isDigit then
    some (cs.foldl (fun a c => a * 10 + (c.toNat - 48)) 0)
  else none

/-- An unsigned decimal literal, integer part and optional fraction part. -/
def parseUnsigned (cs : List Char) : Option ℚ :=
  match cs.splitOn '.' with
  | [i] => if i.isEmpty then none else (parseDigits i).map (fun n => (n : ℚ))
  | [i, f] =>
    if i.isEmpty && f.isEmpty then none
    else do
      let ip ← if i.isEmpty then some 0 else parseDigits i
      let fp ← if f.isEmpty then some 0 else parseDigits f
      some ((ip : ℚ) + (fp : ℚ) / ((10 : ℚ) ^ f.length))
  | _ => none

/-- A signed decimal literal, surrounding whitespace tolerated, as
`pd.to_numeric` accepts for plain decimal strings. -/
def parseDecimal (s : String) : Option ℚ :=
  match (strTrim s).data with
  | '-' :: rest => (parseUnsigned rest).map (fun q => -q)
  | '+' :: rest => parseUnsigned rest
  | cs => parseUnsigned cs

/-- `pd.to_numeric(·, errors="coerce")` on one cell: numbers pass through,
numeric strings parse, everything else coerces to `NaN` (here `none`). -/
def Value.toNumeric : Value → Option ℚ
  | .vStr s => parseDecimal s
  | .vInt n => some (n : ℚ)
  | .vFloat q => some q
  | .vNull => none

/-- `Series.notna` on one cell. -/
def Value.notna : Value → Bool
  | .vNull => false
  | _ => true

/-- Case-insensitive-ready substring test: does `needle` occur inside `hay`?
(Both are passed already lower-cased where the source lower-cases.) -/
def strContainsSub (hay needle : String) : Bool :=
  hay.toList.tails.any (fun t => needle.toList.isPrefixOf t)

/-- A parsed dataframe: ordered column names and rows of cells. -/
structure Table where
  cols : List String
  rows : List (List Value)
deriving DecidableEq

/-- Cell of a row under a column name: positional lookup through the column
list, `vNull` when the column is absent (pandas would raise `KeyError`; the
theorems assume presence wherever the code requires it). -/
def cellAt (cols : List String) (row : List Value) (c : String) : Value :=
  match cols.findIdx? (fun x => x = c) with
  | some i => row.getD i .vNull
  | none => .vNull

/-! ## OrderService (`src/services/order_service.py`) -/

/-- `load_data`: parse then trim column names (case preserved). -/
def loadNormalizeOrders (t : Table) : Table :=
  ⟨t.cols.map strTrim, t.rows⟩

/-- `load_data` as a state transition on `self.df : Option Table`:
a no-op when data is already loaded. -/
def loadData (src : Table) : Option Table → Option Table
  | some df => some df
  | none => some (loadNormalizeOrders src)

/-- `get_completed_orders`: rows whose `Order Status`, as a lower-cased
string, equals `"completed"`. -/
def completedOrders (t : Table) : Table :=
  ⟨t.cols, t.rows.filter (fun r =>
    strLower (cellAt t.cols r "Order Status").astypeStr = "completed")⟩

/-- The trimmed string form of a row's `Order ID`. -/
def orderIdTrim (cols : List String) (r : List Value) : String :=
  strTrim (cellAt cols r "Order ID").astypeStr

/-- `set(completed["Order ID"].astype(str).str.strip())`: the distinct
trimmed `Order ID` strings of the completed rows. -/
def completedIds (t : Table) : Finset String :=
  ((completedOrders t).rows.map (orderIdTrim t.cols)).toFinset

/-- `get_projected_income_total`: sum of coerced `Product Subtotal` over the
completed rows; raises when the column is absent. -/
def projectedIncomeTotal (t : Table) : Except String ℚ :=
  if "Product Subtotal" ∈ t.cols then
    .ok (((completedOrders t).rows.map (fun r =>
      ((cellAt t.cols r "Product Subtotal").toNumeric).getD 0)).sum)
  else .error "Product Subtotal column not found in orders file"

/-- Trimmed string form of a row's `Order Status`
(`df["Order Status"].astype(str).str.strip()` in `get_region_analysis_summary`). -/
def regionStatus (cols : List String) (r : List Value) : String :=
  strTrim (cellAt cols r "Order Status").astypeStr

/-- Trimmed string form of a row's `Cancel reason`. -/
def regionCancelReason (cols : List String) (r : List Value) : String :=
  strTrim (cellAt cols r "Cancel reason").astypeStr

/-- `valid_completed` mask of `get_region_analysis_summary`: exact (trimmed)
status membership, case-sensitive. -/
def validCompleted (cols : List String) (r : List Value) : Bool :=
  ["Completed", "Delivered", "Order Received"].contains (regionStatus cols r)

/-- `valid_cancelled` mask: status exactly `"Cancelled"` and cancel reason
containing `"failed"` case-insensitively. -/
def validCancelled (cols : List String) (r : List Value) : Bool :=
  regionStatus cols r = "Cancelled" &&
    strContainsSub (strLower (regionCancelReason cols r)) "failed"

/-- The row filter of `get_region_analysis_summary`:
`valid_completed | valid_cancelled`. -/
def regionFilter (cols : List String) (r : List Value) : Bool :=
  validCompleted cols r || validCancelled cols r

/-- `map_region`: fixed province-to-region lookup. -/
def mapRegion (province : String) : String :=
  if province = "Metro Manila" ∨ province = "South Luzon" ∨
     province = "North Luzon" then "Luzon"
  else if province = "Visayas" then "Visayas"
  else if province = "Mindanao" then "Mindanao"
  else "Unknown"

/-- Region of a row: `map_region` of the trimmed `Province`. -/
def regionOf (cols : List String) (r : List Value) : String :=
  mapRegion (strTrim (cellAt cols r "Province").astypeStr)

/-- One record of the region analysis result list. -/
structure RegionRecord where
  region : String
  total_orders : Nat
  completed_delivered : Nat
  failed_deliveries : Nat
deriving DecidableEq

/-- Insert into a list sorted ascending by `≤` on strings. -/
def insertStr (x : String) : List String → List String
  | [] => [x]
  | y :: ys => if charListLe x.data y.data then x :: y :: ys else y :: insertStr x ys

/-- Insertion sort for the region keys (`groupby` sorts keys; the code then
sorts the records by region again). -/
def sortStrs : List String → List String
  | [] => []
  | x :: xs => insertStr x (sortStrs xs)

/-- `get_region_analysis_summary`: filter, map provinces to regions, group by
region, and per region count the rows, the completed/delivered subset and the
failed-cancellation subset.  Raises a `KeyError`-style error when one of the
three required columns is absent (`df.get("Cancel reason", "")` also fails on
an absent column because the string default has no `astype`). -/
def regionAnalysisSummary (t : Table) : Except String (List RegionRecord) :=
  if "Order Status" ∈ t.cols ∧ "Cancel reason" ∈ t.cols ∧ "Province" ∈ t.cols then
    let rows := t.rows.filter (regionFilter t.cols)
    let keys := sortStrs ((rows.map (regionOf t.cols)).dedup)
    .ok (keys.map (fun k =>
      let g := rows.filter (fun r => regionOf t.cols r = k)
      { region := k
        total_orders := g.length
        completed_delivered := (g.filter (validCompleted t.cols)).length
        failed_deliveries := (g.filter (validCancelled t.cols)).length }))
  else .error "required column missing"

/-! ## IncomeService (`src/services/income_service.py`) -/

/-- The header / identifier keywords shared by `_detect_header_row`
(`keywords`) and `_detect_order_id_column` (`candidates`). -/
def idKeywords : List String := ["order id", "order no", "order number", "ordersn"]

/-- Does a preview row hold a cell whose lower-cased string form contains a
keyword?  (`row.astype(str).str.lower()`, substring test.) -/
def rowHasKeyword (row : List Value) : Bool :=
  row.any (fun v => idKeywords.any (fun k => strContainsSub (strLower v.astypeStr) k))

/-- `_detect_header_row`: scan the preview rows top-to-bottom and return the
index of the first row holding a keyword (the Python loop with its early
return, `None` when the loop falls through). -/
def detectHeaderRow : List (List Value) → Option Nat
  | [] => none
  | r :: rs =>
    if rowHasKeyword r then some 0 else (detectHeaderRow rs).map (· + 1)

/-- `_detect_order_id_column`: first column (in column order) whose
normalized name contains a keyword. -/
def detectOrderIdColumn (cols : List String) : Option String :=
  cols.find? (fun c => idKeywords.any (fun k => strContainsSub c k))

/-- The loaded income state: normalized columns, data rows, and the detected
identifier column. -/
structure IncomeTable where
  cols : List String
  rows : List (List Value)
  orderIdCol : String
deriving DecidableEq

/-- `load_income_data` on the selected sheet, given as a headerless cell
grid: detect the header row in the first 30 rows, take the header row's
cells (as trimmed lower-cased strings) as column names and the rows below it
as data, then detect the identifier column.  Each `None` detection raises. -/
def loadIncomeTable (grid : List (List Value)) : Except String IncomeTable :=
  match detectHeaderRow (grid.take 30) with
  | none => .error "Could not detect header row in Income sheet"
  | some h =>
    let cols := (grid.getD h []).map (fun v => strLower (strTrim v.astypeStr))
    match detectOrderIdColumn cols with
    | none => .error "Order ID column not found"
    | some c => .ok ⟨cols, grid.drop (h + 1), c⟩

/-- `load_income_data` as a state transition on `self.income_df`:
an immediate return when data is already loaded. -/
def loadIncomeState (grid : List (List Value)) :
    Option IncomeTable → Except String (Option IncomeTable)
  | some it => .ok (some it)
  | none => (loadIncomeTable grid).map some

/-- The trimmed string form of an income row's identifier cell. -/
def incomeIdTrim (it : IncomeTable) (r : List Value) : String :=
  strTrim (cellAt it.cols r it.orderIdCol).astypeStr

/-- `get_income_order_ids`: the distinct trimmed identifier strings of the
income table. -/
def incomeOrderIds (it : IncomeTable) : Finset String :=
  (it.rows.map (incomeIdTrim it)).toFinset

/-- `find_missing_income_orders`: completed orders whose trimmed `Order ID`
is not among the income identifiers. -/
def findMissingIncomeOrders (ot : Table) (it : IncomeTable) : Table :=
  let completed := completedOrders ot
  ⟨completed.cols, completed.rows.filter (fun r =>
    !(decide (orderIdTrim completed.cols r ∈ incomeOrderIds it)))⟩

/-- The reconciliation summary dictionary. -/
structure ReconSummary where
  completed_orders : Nat
  orders_with_income : Nat
  missing_income_orders : Nat
deriving DecidableEq

/-- `get_reconciliation_summary`. -/
def reconciliationSummary (ot : Table) (it : IncomeTable) : ReconSummary :=
  { completed_orders := (completedIds ot).card
    orders_with_income := (incomeOrderIds it).card
    missing_income_orders := ((completedIds ot) \ (incomeOrderIds it)).card }

/-- `_safe_sum`: 0 when the (lower-cased) column is absent, else the sum of
its coerced values with `NaN → 0`. -/
def safeSum (cols : List String) (rows : List (List Value)) (name : String) : ℚ :=
  let c := strLower name
  if c ∈ cols then
    (rows.map (fun r => ((cellAt cols r c).toNumeric).getD 0)).sum
  else 0

/-- The matched-income filter shared by the summary operations: income rows
whose trimmed identifier is among the completed-order ids. -/
def matchedIncome (ot : Table) (it : IncomeTable) : List (List Value) :=
  it.rows.filter (fun r => decide (incomeIdTrim it r ∈ completedIds ot))

/-- The actual-received-income summary dictionary. -/
structure IncomeSummary where
  projectedIncome : ℚ
  actualReceivedIncome : ℚ
  amsCommissionFee : ℚ
  commissionFee : ℚ
  serviceFee : ℚ
  supportProgramFee : ℚ
  transactionFee : ℚ
  withholdingTax : ℚ
  totalReleasedAmount : ℚ
deriving DecidableEq

/-- `get_actual_received_income_summary`: sums over the matched income rows;
propagates the error of `get_projected_income_total`. -/
def actualReceivedIncomeSummary (ot : Table) (it : IncomeTable) :
    Except String IncomeSummary :=
  (projectedIncomeTotal ot).map (fun p =>
    let m := matchedIncome ot it
    { projectedIncome := p
      actualReceivedIncome := safeSum it.cols m "total released amount (₱)"
      amsCommissionFee := safeSum it.cols m "ams commission fee"
      commissionFee := safeSum it.cols m "commission fee"
      serviceFee := safeSum it.cols m "service fee"
      supportProgramFee := safeSum it.cols m "support program fee"
      transactionFee := safeSum it.cols m "transaction fee"
      withholdingTax := safeSum it.cols m "withholding tax"
      totalReleasedAmount := safeSum it.cols m "total released amount (₱)" })

/-- The return/refund row filter: matched to a completed order, `refund id`
non-null, and `refund id` non-empty after string-trimming. -/
def refundedRows (ot : Table) (it : IncomeTable) : List (List Value) :=
  it.rows.filter (fun r =>
    decide (incomeIdTrim it r ∈ completedIds ot) &&
    (cellAt it.cols r "refund id").notna &&
    !(strTrim (cellAt it.cols r "refund id").astypeStr = ""))

/-- The return/refund summary dictionary. -/
structure RefundSummary where
  count : Nat
  totalRevenueLoss : ℚ
  reverseShippingFee : ℚ
deriving DecidableEq

/-- `get_return_refund_summary`. -/
def returnRefundSummary (ot : Table) (it : IncomeTable) : RefundSummary :=
  let rf := refundedRows ot it
  { count := rf.length
    totalRevenueLoss := |safeSum it.cols rf "refund amount"|
    reverseShippingFee := |safeSum it.cols rf "reverse shipping fee"| }

/-- The `column_map` of `get_return_refund_details`, in dict insertion
order: source column name paired with display name. -/
def refundDetailMap (idCol : String) : List (String × String) :=
  [(idCol, "Order ID"),
   ("refund id", "Refund ID"),
   ("username (buyer)", "Username (Buyer)"),
   ("order creation date", "Order Creation Date"),
   ("refund amount", "Refund Amount"),
   ("shipping fee rebate from shopee", "Shipping Fee Rebate From Shopee"),
   ("3rd party logistics - defined shipping fee",
    "3rd Party Logistics - Defined Shipping Fee"),
   ("reverse shipping fee", "Reverse Shipping Fee"),
   ("total released amount (₱)", "Total Released Amount (₱)"),
   ("cash refund to buyer amount", "Cash Refund to Buyer Amount")]

/-- The `numeric_cols` whitelist of `get_return_refund_details` (display
names made coerced-absolute). -/
def refundNumericCols : List String :=
  ["Refund Amount",
   "Shipping Fee Rebate From Shopee",
   "3rd Party Logistics - Defined Shipping Fee",
   "Reverse Shipping Fee",
   "Total Released Amount (₱)",
   "Cash Refund to Buyer Amount"]

/-- Project a row onto the present whitelist columns, transforming the cell
of each numeric display column into the absolute value of its coercion
(`pd.to_numeric(...).fillna(0).abs()`, a float column). -/
def projectRow (cols : List String) (present : List (String × String))
    (numeric : List String) (r : List Value) : List Value :=
  present.map (fun p =>
    let v := cellAt cols r p.1
    if p.2 ∈ numeric then Value.vFloat |(v.toNumeric).getD 0| else v)

/-- `get_return_refund_details`: the refunded rows projected onto the
present whitelist columns (renamed, in declared order), monetary columns
coerced and made non-negative.  Cells of non-numeric columns pass through
unchanged — nulls included. -/
def returnRefundDetails (ot : Table) (it : IncomeTable) : Table :=
  let rf := refundedRows ot it
  let present := (refundDetailMap it.orderIdCol).filter (fun p => p.1 ∈ it.cols)
  ⟨present.map (fun p => p.2),
   rf.map (projectRow it.cols present refundNumericCols)⟩

/-- The `column_map` of `get_missing_income_report`. -/
def missingReportMap : List (String × String) :=
  [("order id", "Order ID"),
   ("tracking number*", "Tracking Number"),
   ("estimated ship out date", "Estimated Ship Out Date"),
   ("order creation date", "Order Creation Date"),
   ("product name", "Product Name"),
   ("variation name", "Variation Name"),
   ("original price", "Original Price"),
   ("deal price", "Deal Price"),
   ("product subtotal", "Product Subtotal"),
   ("username (buyer)", "Username (Buyer)")]

/-- `fillna("")` on one cell. -/
def fillNaEmpty (v : Value) : Value :=
  if v = .vNull then .vStr "" else v

/-- `get_missing_income_report`: lower-case/trim the missing-order table's
column names, keep the present whitelist columns in declared order, rename
them, and replace every null cell with the empty string. -/
def missingIncomeReport (ot : Table) (it : IncomeTable) : Table :=
  let missing := findMissingIncomeOrders ot it
  let lcols := missing.cols.map (fun c => strLower (strTrim c))
  let present := missingReportMap.filter (fun p => p.1 ∈ lcols)
  ⟨present.map (fun p => p.2),
   missing.rows.map (fun r => present.map (fun p => fillNaEmpty (cellAt lcols r p.1)))⟩

/-- The `column_map` of `get_overcharge_shipping_fee_summary`. -/
def overchargeMap (idCol : String) : List (String × String) :=
  [(idCol, "Order ID"),
   ("username (buyer)", "Username (Buyer)"),
   ("buyer paid shipping fee", "Buyer Paid Shipping Fee"),
   ("shipping fee rebate from shopee", "Shipping Fee Rebate From Shopee"),
   ("3rd party logistics - defined shipping fee",
    "3rd Party Logistics - Defined Shipping Fee")]

/-- The shipping columns coerced and made absolute. -/
def overchargeNumericCols : List String :=
  ["Buyer Paid Shipping Fee",
   "Shipping Fee Rebate From Shopee",
   "3rd Party Logistics - Defined Shipping Fee"]

/-- The sort key of the overcharge report: the coerced value of the
(already numeric) 3rd-party-logistics display column of a projected row. -/
def overchargeKey (headers : List String) (row : List Value) : ℚ :=
  ((cellAt headers row "3rd Party Logistics - Defined Shipping Fee").toNumeric).getD 0

/-- Insert into a list sorted descending by `key`. -/
def insertDescBy (key : List Value → ℚ) (x : List Value) :
    List (List Value) → List (List Value)
  | [] => [x]
  | y :: ys => if key y ≤ key x then x :: y :: ys else y :: insertDescBy key x ys

/-- Sort rows descending by `key` (`sort_values(..., ascending=False)`; the
claims below depend on sortedness and truncation, not on tie order). -/
def sortDescBy (key : List Value → ℚ) : List (List Value) → List (List Value)
  | [] => []
  | x :: xs => insertDescBy key x (sortDescBy key xs)

/-- `get_overcharge_shipping_fee_summary`: over the matched income rows,
if the 3rd-party-logistics source column is absent return an empty table
under the present whitelist headers; otherwise project/coerce, sort
descending by the 3rd-party-logistics fee, and keep the first `limit` rows. -/
def overchargeShippingFeeSummary (ot : Table) (it : IncomeTable) (limit : Nat) :
    Table :=
  let m := matchedIncome ot it
  let present := (overchargeMap it.orderIdCol).filter (fun p => p.1 ∈ it.cols)
  let headers := present.map (fun p => p.2)
  if "3rd party logistics - defined shipping fee" ∈ it.cols then
    ⟨headers,
     (sortDescBy (overchargeKey headers)
       (m.map (projectRow it.cols present overchargeNumericCols))).take limit⟩
  else ⟨headers, []⟩

/-! ## Auxiliary predicates and concrete tables used by the verification -/

/-- No cell of the table is a null placeholder. -/
def noNullCells (t : Table) : Prop :=
  ∀ row ∈ t.rows, Value.vNull ∉ row

/-- Modelled from the claim's words, for comparison with `regionFilter`:
keep a row iff its status case-insensitively equals `"Completed"`,
`"Delivered"` or `"Order Received"`, or case-insensitively equals
`"Cancelled"` with a cancel reason case-insensitively containing
`"failed"`. -/
def claimC4Keep (cols : List String) (r : List Value) : Bool :=
  (["Completed", "Delivered", "Order Received"].map strLower).contains
      (strLower (regionStatus cols r)) ||
    (strLower (regionStatus cols r) = strLower "Cancelled" &&
      strContainsSub (strLower (regionCancelReason cols r)) "failed")

/-- An orders table with one completed order whose identifier carries
surrounding spaces. -/
def spacedOrders : Table :=
  ⟨["Order ID", "Order Status"], [[.vStr " 123 ", .vStr "Completed"]]⟩

/-- An income table whose identifier cell is the numeric value `123`. -/
def numericIncome : IncomeTable :=
  ⟨["order id"], [[.vInt 123]], "order id"⟩

/-- A headerless income grid whose row 7 is the first holding a keyword
(`"OrderSN"`). -/
def grid7 : List (List Value) :=
  [[.vStr "a"], [.vStr "b"], [], [.vStr "x"], [.vNull], [.vInt 5], [.vStr "y"],
   [.vStr "OrderSN", .vStr "Amount"], [.vInt 1, .vFloat 2]]

/-- An orders table whose single row has the lower-cased status
`"completed"`. -/
def lowerStatusOrders : Table :=
  ⟨["Order ID", "Order Status", "Cancel reason", "Province"],
   [[.vStr "A", .vStr "completed", .vStr "", .vStr "Visayas"]]⟩

/-- The single row of `lowerStatusOrders`. -/
def lowerStatusRow : List Value :=
  [.vStr "A", .vStr "completed", .vStr "", .vStr "Visayas"]

/-- A one-completed-order orders table. -/
def oneOrder : Table :=
  ⟨["Order ID", "Order Status"], [[.vStr "A", .vStr "Completed"]]⟩

/-- An income table with a refunded row whose buyer username is null. -/
def nullUserIncome : IncomeTable :=
  ⟨["order id", "refund id", "username (buyer)"],
   [[.vStr "A", .vStr "R1", .vNull]], "order id"⟩

/-- An income table with a matched refunded row whose refund amount is the
negative value `-7`. -/
def negativeRefundIncome : IncomeTable :=
  ⟨["order id", "refund id", "refund amount"],
   [[.vStr "A", .vStr "R1", .vInt (-7)]], "order id"⟩

/-- An income table carrying a shipping column but no
3rd-party-logistics-defined shipping fee column. -/
def noThirdPartyIncome : IncomeTable :=
  ⟨["order id", "buyer paid shipping fee"], [[.vStr "A", .vInt 3]], "order id"⟩

/-- An income table with the 3rd-party-logistics column and three matched
rows of fees 3, -9 and the numeric string "4". -/
def thirdPartyIncome : IncomeTable :=
  ⟨["order id", "3rd party logistics - defined shipping fee"],
   [[.vStr "A", .vInt 3], [.vStr "A", .vInt (-9)], [.vStr "A", .vStr "4"]],
   "order id"⟩

/-- An orders table with a subtotal column and no rows, and an empty income
table, for evaluating the income summary. -/
def emptyOrdersWithSubtotal : Table :=
  ⟨["Order ID", "Order Status", "Product Subtotal"], []⟩

/-- An income table with no rows. -/
def emptyIncome : IncomeTable :=
  ⟨["order id"], [], "order id"⟩

/-- A region-analysis table: one completed and one failed-cancelled order,
both in Visayas. -/
def visayasOrders : Table :=
  ⟨["Order ID", "Order Status", "Cancel reason", "Province"],
   [[.vStr "A", .vStr "Completed", .vStr "", .vStr "Visayas"],
    [.vStr "B", .vStr "Cancelled", .vStr "Failed Delivery", .vStr "Visayas"]]⟩

instance noNullCellsDecidable (t : Table) : Decidable (noNullCells t) :=
  inferInstanceAs (Decidable (∀ row ∈ t.rows, Value.vNull ∉ row))

/-- Three completed orders A, B, C (the spec's reconciliation example). -/
def ordersABC : Table :=
  ⟨["Order ID", "Order Status"],
   [[.vStr "A", .vStr "Completed"], [.vStr "B", .vStr "Completed"],
    [.vStr "C", .vStr "Completed"]]⟩

/-- An income table holding identifiers A and C only. -/
def incomeAC : IncomeTable :=
  ⟨["order id"], [[.vStr "A"], [.vStr "C"]], "order id"⟩

/-! ## Helper lemmas -/

/-- `detectHeaderRow` returns exactly the first index whose row holds a
keyword. -/
theorem detectHeaderRow_eq_some (l : List (List Value)) (i : Nat) :
    detectHeaderRow l = some i ↔
      i < l.length ∧ rowHasKeyword (l.getD i []) = true ∧
        ∀ j, j < i → rowHasKeyword (l.getD j []) = false := by
  induction l generalizing i with
  | nil => simp [detectHeaderRow]
  | cons r rs ih =>
    by_cases h : rowHasKeyword r = true
    · simp only [detectHeaderRow, if_pos h]
      constructor
      · intro hi
        cases hi
        exact ⟨Nat.succ_pos _, h, fun j hj => absurd hj (Nat.not_lt_zero j)⟩
      · rintro ⟨-, -, hall⟩
        cases i with
        | zero => rfl
        | succ i => exact absurd h (by simpa using hall 0 (Nat.succ_pos i))
    · simp only [detectHeaderRow, if_neg h, Option.map_eq_some']
      constructor
      · rintro ⟨i', hi', rfl⟩
        obtain ⟨hlen, hkw, hall⟩ := (ih i').mp hi'
        refine ⟨Nat.succ_lt_succ hlen, hkw, fun j hj => ?_⟩
        cases j with
        | zero => simpa using h
        | succ j => exact hall j (Nat.lt_of_succ_lt_succ hj)
      · rintro ⟨hlen, hkw, hall⟩
        cases i with
        | zero => exact absurd hkw (by simpa using h)
        | succ i =>
          refine ⟨i, (ih i).mpr ⟨Nat.lt_of_succ_lt_succ hlen, hkw, ?_⟩, rfl⟩
          exact fun j hj => hall (j + 1) (Nat.succ_lt_succ hj)

/-- `notna` is exactly non-nullness. -/
theorem notna_iff (v : Value) : v.notna = true ↔ v ≠ .vNull := by
  cases v <;> simp [Value.notna]

/-! ## The claims -/

/-- Claim C2: identifier matching in `incomeOrderIds`,
`findMissingIncomeOrders` and the matched-income filter is performed on the
trimmed string form of the identifier on both sides; in particular the
orders identifier `" 123 "` (string) matches the income identifier `123`
(numeric) after normalization. -/
theorem claim_C2 (ot : Table) (it : IncomeTable) :
    (∀ v : Value, strTrim v.astypeStr ∈ incomeOrderIds it ↔
        ∃ r ∈ it.rows,
          strTrim (cellAt it.cols r it.orderIdCol).astypeStr = strTrim v.astypeStr) ∧
    (∀ r, r ∈ (findMissingIncomeOrders ot it).rows ↔
        r ∈ (completedOrders ot).rows ∧
          strTrim (cellAt ot.cols r "Order ID").astypeStr ∉ incomeOrderIds it) ∧
    (∀ r, r ∈ matchedIncome ot it ↔ r ∈ it.rows ∧
        strTrim (cellAt it.cols r it.orderIdCol).astypeStr ∈ completedIds ot) ∧
    strTrim (Value.vStr " 123 ").astypeStr = strTrim (Value.vInt 123).astypeStr ∧
    (findMissingIncomeOrders spacedOrders numericIncome).rows = [] ∧
    reconciliationSummary spacedOrders numericIncome = ⟨1, 1, 0⟩ := by
  refine ⟨?_, ?_, ?_, by decide, by decide, by decide⟩
  · intro v
    simp [incomeOrderIds, incomeIdTrim]
  · intro r
    simp only [findMissingIncomeOrders, List.mem_filter, orderIdTrim, completedOrders,
      Bool.not_eq_true', decide_eq_false_iff_not]
  · intro r
    simp [matchedIncome, List.mem_filter, incomeIdTrim]

/-- Claim C3: income loading scans the first 30 rows and picks the first
row holding one of the four keywords as header, failing with the
header-not-found error when no preview row qualifies; a grid whose first
keyword cell `"OrderSN"` sits in row 7 is detected at index 7. -/
theorem claim_C3 (grid : List (List Value)) :
    (∀ i, detectHeaderRow (grid.take 30) = some i ↔
        i < (grid.take 30).length ∧
          rowHasKeyword ((grid.take 30).getD i []) = true ∧
          ∀ j, j < i → rowHasKeyword ((grid.take 30).getD j []) = false) ∧
    (detectHeaderRow (grid.take 30) = none →
        loadIncomeTable grid = .error "Could not detect header row in Income sheet") ∧
    detectHeaderRow (grid7.take 30) = some 7 := by
  refine ⟨fun i => detectHeaderRow_eq_some _ i, fun h => ?_, by decide⟩
  simp [loadIncomeTable, h]

/-- Claim C5: the actual-received-income summary reports `Actual Received
Income` numerically equal to `Total Released Amount (₱)`, both being the
summed coerced total-released-amount column over the matched income rows. -/
theorem claim_C5 (ot : Table) (it : IncomeTable) (d : IncomeSummary)
    (h : actualReceivedIncomeSummary ot it = .ok d) :
    d.actualReceivedIncome = d.totalReleasedAmount ∧
    d.actualReceivedIncome =
      safeSum it.cols (matchedIncome ot it) "total released amount (₱)" := by
  unfold actualReceivedIncomeSummary at h
  cases hp : projectedIncomeTotal ot with
  | error e => rw [hp] at h; exact absurd h (by simp [Except.map])
  | ok p =>
    rw [hp] at h
    simp only [Except.map, Except.ok.injEq] at h
    subst h
    exact ⟨rfl, rfl⟩

/-- Claim C5 witness: at a concrete pair of tables the summary is computed
and its two entries agree. -/
theorem claim_C5_witness :
    actualReceivedIncomeSummary emptyOrdersWithSubtotal emptyIncome =
      .ok ⟨0, 0, 0, 0, 0, 0, 0, 0, 0⟩ ∧
    (0 : ℚ) = 0 := by
  refine ⟨rfl, (claim_C5 emptyOrdersWithSubtotal emptyIncome ⟨0, 0, 0, 0, 0, 0, 0, 0, 0⟩ rfl).1⟩

/-- Claim C9: loading is idempotent for both services: a second `load` call
on an already-loaded state is a no-op, so every subsequent query computes
from the same state and returns identical results. -/
theorem claim_C9 (src : Table) (st : Option Table) (grid : List (List Value))
    (it : IncomeTable) :
    loadData src (loadData src st) = loadData src st ∧
    loadIncomeState grid (some it) = .ok (some it) ∧
    (∀ (α : Type) (query : Option Table → α),
      query (loadData src (loadData src st)) = query (loadData src st)) := by
  have h : loadData src (loadData src st) = loadData src st := by
    cases st <;> rfl
  exact ⟨h, rfl, fun α query => congrArg query h⟩

/-- Claim C8: the return/refund summary filters the matched income rows to
those with a non-null, non-empty-after-trim refund id, and reports the two
monetary entries as absolute values of the coerced column sums, so the
reported revenue loss is non-negative even for negative source amounts. -/
theorem claim_C8 (ot : Table) (it : IncomeTable) (_h : "refund id" ∈ it.cols) :
    (∀ r, r ∈ refundedRows ot it ↔ r ∈ it.rows ∧
        strTrim (cellAt it.cols r it.orderIdCol).astypeStr ∈ completedIds ot ∧
        cellAt it.cols r "refund id" ≠ .vNull ∧
        strTrim (cellAt it.cols r "refund id").astypeStr ≠ "") ∧
    (returnRefundSummary ot it).totalRevenueLoss =
      |safeSum it.cols (refundedRows ot it) "refund amount"| ∧
    (returnRefundSummary ot it).reverseShippingFee =
      |safeSum it.cols (refundedRows ot it) "reverse shipping fee"| ∧
    (returnRefundSummary ot it).count = (refundedRows ot it).length ∧
    0 ≤ (returnRefundSummary ot it).totalRevenueLoss ∧
    0 ≤ (returnRefundSummary ot it).reverseShippingFee := by
  refine ⟨fun r => ?_, rfl, rfl, rfl, abs_nonneg _, abs_nonneg _⟩
  simp only [refundedRows, List.mem_filter, Bool.and_eq_true, decide_eq_true_eq,
    Bool.not_eq_true', decide_eq_false_iff_not, notna_iff, incomeIdTrim]
  tauto

/-- Claim C8 witness: on a matched refunded row whose refund amount is the
negative value `-7`, the reported revenue loss is the non-negative `7`. -/
theorem claim_C8_witness :
    (returnRefundSummary oneOrder negativeRefundIncome).count = 1 ∧
    0 ≤ (returnRefundSummary oneOrder negativeRefundIncome).totalRevenueLoss ∧
    (returnRefundSummary oneOrder negativeRefundIncome).totalRevenueLoss = 7 := by
  refine ⟨by decide, (claim_C8 oneOrder negativeRefundIncome (by decide)).2.2.2.2.1, ?_⟩
  show |safeSum negativeRefundIncome.cols
    (refundedRows oneOrder negativeRefundIncome) "refund amount"| = 7
  rw [show refundedRows oneOrder negativeRefundIncome
      = [[.vStr "A", .vStr "R1", .vInt (-7)]] from by decide]
  rw [show safeSum negativeRefundIncome.cols
      [[.vStr "A", .vStr "R1", .vInt (-7)]] "refund amount"
      = ((-7 : Int) : ℚ) + 0 from rfl]
  norm_num

/-- Claim C1: the reconciliation summary counts distinct trimmed completed
ids, distinct trimmed income ids, and the cardinality of their set
difference; with unique identifiers on both sides the latter equals the
row count of the missing-income report. -/
theorem claim_C1 (ot : Table) (it : IncomeTable) :
    (reconciliationSummary ot it).completed_orders = (completedIds ot).card ∧
    (reconciliationSummary ot it).orders_with_income = (incomeOrderIds it).card ∧
    (reconciliationSummary ot it).missing_income_orders =
      (completedIds ot \ incomeOrderIds it).card ∧
    (((completedOrders ot).rows.map (orderIdTrim ot.cols)).Nodup →
      (it.rows.map (incomeIdTrim it)).Nodup →
      (reconciliationSummary ot it).missing_income_orders =
        (missingIncomeReport ot it).rows.length) := by
  refine ⟨rfl, rfl, rfl, fun hc _ => ?_⟩
  have h1 : (missingIncomeReport ot it).rows.length =
      ((completedOrders ot).rows.filter (fun r =>
        !(decide (orderIdTrim ot.cols r ∈ incomeOrderIds it)))).length := by
    simp only [missingIncomeReport, List.length_map, findMissingIncomeOrders]
    rfl
  have h2 : ((completedOrders ot).rows.filter (fun r =>
        !(decide (orderIdTrim ot.cols r ∈ incomeOrderIds it)))).length =
      (((completedOrders ot).rows.map (orderIdTrim ot.cols)).filter (fun s =>
        !(decide (s ∈ incomeOrderIds it)))).length := by
    rw [← List.countP_eq_length_filter, ← List.countP_eq_length_filter,
      List.countP_map]
    rfl
  have h3 : (((completedOrders ot).rows.map (orderIdTrim ot.cols)).filter (fun s =>
        !(decide (s ∈ incomeOrderIds it)))).length =
      ((completedIds ot).filter (fun s => s ∉ incomeOrderIds it)).card := by
    rw [← List.toFinset_card_of_nodup (hc.filter _), List.toFinset_filter]
    congr 1
    apply Finset.filter_congr
    intro s _
    simp
  rw [h1, h2, h3]
  show (completedIds ot \ incomeOrderIds it).card = _
  rw [Finset.sdiff_eq_filter]

/-- Claim C1 witness: the spec's example, three completed orders A, B, C
against income rows A and C. -/
theorem claim_C1_witness :
    reconciliationSummary ordersABC incomeAC = ⟨3, 2, 1⟩ ∧
    (reconciliationSummary ordersABC incomeAC).missing_income_orders =
      (missingIncomeReport ordersABC incomeAC).rows.length :=
  ⟨by decide, (claim_C1 ordersABC incomeAC).2.2.2 (by decide) (by decide)⟩

/-- A group of rows that all pass the region filter splits exactly into its
completed/delivered and failed-cancellation subsets. -/
theorem length_filter_split (cols : List String) (g : List (List Value))
    (hg : ∀ r ∈ g, regionFilter cols r = true) :
    g.length = (g.filter (validCompleted cols)).length +
      (g.filter (validCancelled cols)).length := by
  induction g with
  | nil => rfl
  | cons r rs ih =>
    have hr := hg r (List.mem_cons_self r rs)
    have ih' := ih fun x hx => hg x (List.mem_cons_of_mem r hx)
    have disj : validCompleted cols r = true → validCancelled cols r = false := by
      intro hvc
      have hne : regionStatus cols r ≠ "Cancelled" := by
        have hmem : regionStatus cols r ∈ ["Completed", "Delivered", "Order Received"] := by
          simpa [validCompleted] using hvc
        intro he
        rw [he] at hmem
        exact absurd hmem (by decide)
      simp [validCancelled, hne]
    rw [List.filter_cons, List.filter_cons]
    by_cases hvc : validCompleted cols r = true
    · rw [if_pos hvc, if_neg (by simp [disj hvc])]
      simp only [List.length_cons, ih']
      omega
    · have hcan : validCancelled cols r = true := by
        have hor := hr
        simp only [regionFilter, Bool.or_eq_true] at hor
        exact hor.resolve_left hvc
      rw [if_neg hvc, if_pos hcan]
      simp only [List.length_cons, ih']
      omega

/-- Claim C10: every record of the region analysis satisfies
`total_orders = completed_delivered + failed_deliveries`, since the
pre-grouping filter keeps exactly the union of the two disjoint subsets. -/
theorem claim_C10 (t : Table) (l : List RegionRecord)
    (h : regionAnalysisSummary t = .ok l) :
    ∀ rec ∈ l, rec.total_orders = rec.completed_delivered + rec.failed_deliveries := by
  intro rec hrec
  unfold regionAnalysisSummary at h
  by_cases hc : "Order Status" ∈ t.cols ∧ "Cancel reason" ∈ t.cols ∧ "Province" ∈ t.cols
  · rw [if_pos hc] at h
    simp only [Except.ok.injEq] at h
    subst h
    simp only [List.mem_map] at hrec
    obtain ⟨k, -, rfl⟩ := hrec
    exact length_filter_split t.cols _ fun r hr =>
      (List.mem_filter.mp (List.mem_filter.mp hr).1).2
  · rw [if_neg hc] at h
    cases h

/-- Claim C10 witness: a concrete table with one completed and one
failed-cancelled Visayas order. -/
theorem claim_C10_witness :
    regionAnalysisSummary visayasOrders = .ok [⟨"Visayas", 2, 1, 1⟩] ∧
    ∀ rec ∈ [(⟨"Visayas", 2, 1, 1⟩ : RegionRecord)],
      rec.total_orders = rec.completed_delivered + rec.failed_deliveries :=
  ⟨rfl, claim_C10 visayasOrders _ rfl⟩

/-- Members of an insertion are the inserted element or members of the
original list. -/
theorem mem_insertDescBy (key : List Value → ℚ) (x z : List Value)
    (l : List (List Value)) (h : z ∈ insertDescBy key x l) : z = x ∨ z ∈ l := by
  induction l with
  | nil => exact Or.inl (by simpa [insertDescBy] using h)
  | cons y ys ih =>
    simp only [insertDescBy] at h
    by_cases hc : key y ≤ key x
    · rw [if_pos hc] at h
      rcases List.mem_cons.mp h with rfl | h'
      · exact Or.inl rfl
      · exact Or.inr h'
    · rw [if_neg hc] at h
      rcases List.mem_cons.mp h with rfl | h'
      · exact Or.inr (List.mem_cons_self _ _)
      · rcases ih h' with rfl | h''
        · exact Or.inl rfl
        · exact Or.inr (List.mem_cons_of_mem _ h'')

/-- Inserting into a list sorted descending by `key` keeps it sorted. -/
theorem pairwise_insertDescBy (key : List Value → ℚ) (x : List Value)
    (l : List (List Value)) (h : l.Pairwise (fun a b => key b ≤ key a)) :
    (insertDescBy key x l).Pairwise (fun a b => key b ≤ key a) := by
  induction l with
  | nil => simp [insertDescBy]
  | cons y ys ih =>
    obtain ⟨hy, hys⟩ := List.pairwise_cons.mp h
    simp only [insertDescBy]
    by_cases hc : key y ≤ key x
    · rw [if_pos hc]
      refine List.pairwise_cons.mpr ⟨fun z hz => ?_, h⟩
      rcases List.mem_cons.mp hz with rfl | hz'
      · exact hc
      · exact le_trans (hy z hz') hc
    · rw [if_neg hc]
      refine List.pairwise_cons.mpr ⟨fun z hz => ?_, ih hys⟩
      rcases mem_insertDescBy key x z ys hz with rfl | hz'
      · exact le_of_lt (lt_of_not_le hc)
      · exact hy z hz'

/-- The insertion sort produces a list sorted descending by `key`. -/
theorem pairwise_sortDescBy (key : List Value → ℚ) (l : List (List Value)) :
    (sortDescBy key l).Pairwise (fun a b => key b ≤ key a) := by
  induction l with
  | nil => simp [sortDescBy]
  | cons x xs ih => exact pairwise_insertDescBy key x _ ih

/-- Claim C6: when the 3rd-party-logistics column is absent the overcharge
summary returns, without error, an empty table under the present whitelist
headers; when present, the result is sorted descending by the
3rd-party-logistics fee and truncated to the first `limit` rows. -/
theorem claim_C6 (ot : Table) (it : IncomeTable) (limit : Nat) :
    ("3rd party logistics - defined shipping fee" ∉ it.cols →
      overchargeShippingFeeSummary ot it limit =
        ⟨((overchargeMap it.orderIdCol).filter (fun p => p.1 ∈ it.cols)).map
          (fun p => p.2), []⟩) ∧
    ("3rd party logistics - defined shipping fee" ∈ it.cols →
      (overchargeShippingFeeSummary ot it limit).rows.length ≤ limit ∧
      (overchargeShippingFeeSummary ot it limit).rows.Pairwise
        (fun a b =>
          overchargeKey (overchargeShippingFeeSummary ot it limit).cols b ≤
          overchargeKey (overchargeShippingFeeSummary ot it limit).cols a) ∧
      (overchargeShippingFeeSummary ot it limit).rows =
        (sortDescBy
          (overchargeKey (((overchargeMap it.orderIdCol).filter
            (fun p => p.1 ∈ it.cols)).map (fun p => p.2)))
          ((matchedIncome ot it).map (projectRow it.cols
            ((overchargeMap it.orderIdCol).filter (fun p => p.1 ∈ it.cols))
            overchargeNumericCols))).take limit) := by
  constructor
  · intro h
    simp only [overchargeShippingFeeSummary, if_neg h]
  · intro h
    have hrev : overchargeShippingFeeSummary ot it limit =
        ⟨((overchargeMap it.orderIdCol).filter (fun p => p.1 ∈ it.cols)).map
          (fun p => p.2),
        (sortDescBy
          (overchargeKey (((overchargeMap it.orderIdCol).filter
            (fun p => p.1 ∈ it.cols)).map (fun p => p.2)))
          ((matchedIncome ot it).map (projectRow it.cols
            ((overchargeMap it.orderIdCol).filter (fun p => p.1 ∈ it.cols))
            overchargeNumericCols))).take limit⟩ := by
      simp only [overchargeShippingFeeSummary, if_pos h]
    rw [hrev]
    refine ⟨?_, ?_, rfl⟩
    · simp only [List.length_take]
      exact Nat.min_le_left limit _
    · exact (pairwise_sortDescBy _ _).sublist (List.take_sublist _ _)

/-- Claim C6 witness: with the column absent the result is an empty table
under the present headers; with it present the result is the sorted
truncation. -/
theorem claim_C6_witness :
    overchargeShippingFeeSummary oneOrder noThirdPartyIncome 50 =
      ⟨["Order ID", "Buyer Paid Shipping Fee"], []⟩ ∧
    overchargeShippingFeeSummary oneOrder thirdPartyIncome 2 =
      ⟨["Order ID", "3rd Party Logistics - Defined Shipping Fee"],
       [[.vStr "A", .vFloat 9], [.vStr "A", .vFloat 4]]⟩ :=
  ⟨(claim_C6 oneOrder noThirdPartyIncome 50).1 (by decide), by decide⟩

/-- Claim C4 counterexample: a row whose status is the lower-cased
`"completed"` satisfies the claimed case-insensitive predicate but is
dropped by the code's case-sensitive filter, so the region analysis of the
one-row table is empty. -/
theorem claim_C4_cex :
    claimC4Keep lowerStatusOrders.cols lowerStatusRow = true ∧
    regionFilter lowerStatusOrders.cols lowerStatusRow = false ∧
    regionAnalysisSummary lowerStatusOrders = .ok [] :=
  ⟨by decide, by decide, rfl⟩

/-- Claim C4 (amended): the region-analysis filter keeps a row iff its
trimmed status equals exactly `"Completed"`, `"Delivered"` or
`"Order Received"`, or equals exactly `"Cancelled"` with a cancel reason
case-insensitively containing `"failed"`. -/
theorem claim_C4_amended (cols : List String) (r : List Value) :
    regionFilter cols r = true ↔
      (regionStatus cols r = "Completed" ∨ regionStatus cols r = "Delivered" ∨
        regionStatus cols r = "Order Received" ∨
        (regionStatus cols r = "Cancelled" ∧
          strContainsSub (strLower (regionCancelReason cols r)) "failed" = true)) := by
  simp only [regionFilter, validCompleted, validCancelled, Bool.or_eq_true,
    Bool.and_eq_true, List.contains_eq_any_beq, List.any_eq_true, List.mem_cons,
    List.not_mem_nil, or_false, beq_iff_eq, decide_eq_true_eq]
  constructor
  · rintro (⟨x, hx, heq⟩ | ⟨h1, h2⟩)
    · rcases hx with rfl | rfl | rfl
      · exact Or.inl heq
      · exact Or.inr (Or.inl heq)
      · exact Or.inr (Or.inr (Or.inl heq))
    · exact Or.inr (Or.inr (Or.inr ⟨h1, h2⟩))
  · rintro (h | h | h | ⟨h1, h2⟩)
    · exact Or.inl ⟨_, Or.inl rfl, h⟩
    · exact Or.inl ⟨_, Or.inr (Or.inl rfl), h⟩
    · exact Or.inl ⟨_, Or.inr (Or.inr rfl), h⟩
    · exact Or.inr ⟨h1, h2⟩

/-- Claim C4 witness: a trimmed-exact `"Cancelled"` row whose reason
contains `"Failed"` is kept. -/
theorem claim_C4_witness :
    regionFilter visayasOrders.cols
      [.vStr "B", .vStr "Cancelled", .vStr "Failed Delivery", .vStr "Visayas"] = true :=
  (claim_C4_amended visayasOrders.cols
      [.vStr "B", .vStr "Cancelled", .vStr "Failed Delivery", .vStr "Visayas"]).mpr
    (Or.inr (Or.inr (Or.inr ⟨by decide, by decide⟩)))

/-- `fillna("")` never leaves a null cell. -/
theorem fillNaEmpty_ne_null (v : Value) : fillNaEmpty v ≠ .vNull := by
  unfold fillNaEmpty
  split
  · exact fun h => Value.noConfusion h
  · assumption

/-- Claim C7 counterexample: a refunded income row with a null buyer
username yields a refund-detail table containing a visible null cell. -/
theorem claim_C7_cex :
    ¬ noNullCells (returnRefundDetails oneOrder nullUserIncome) ∧
    (returnRefundDetails oneOrder nullUserIncome).rows =
      [[.vStr "A", .vStr "R1", .vNull]] :=
  ⟨by decide, by decide⟩

/-- Claim C7 (amended): the missing-income report renders every absent cell
as the empty string (no nulls); both report tables carry exactly the
present whitelist columns in declared order; and in the refund-detail table
the numeric whitelist columns are rendered as non-null coerced floats,
while nulls in the non-numeric columns pass through unchanged. -/
theorem claim_C7_amended (ot : Table) (it : IncomeTable) :
    noNullCells (missingIncomeReport ot it) ∧
    (missingIncomeReport ot it).cols =
      (missingReportMap.filter (fun p =>
        p.1 ∈ (findMissingIncomeOrders ot it).cols.map
          (fun c => strLower (strTrim c)))).map (fun p => p.2) ∧
    (returnRefundDetails ot it).cols =
      ((refundDetailMap it.orderIdCol).filter (fun p => p.1 ∈ it.cols)).map
        (fun p => p.2) ∧
    (∀ row ∈ (returnRefundDetails ot it).rows, ∀ i : Nat,
      ∀ hp : i < ((refundDetailMap it.orderIdCol).filter
          (fun p => p.1 ∈ it.cols)).length,
      (((refundDetailMap it.orderIdCol).filter
          (fun p => p.1 ∈ it.cols)).get ⟨i, hp⟩).2 ∈ refundNumericCols →
      ∃ q : ℚ, row.getD i .vNull = .vFloat q) := by
  refine ⟨?_, rfl, rfl, ?_⟩
  · intro row hrow
    simp only [missingIncomeReport, List.mem_map] at hrow
    obtain ⟨r, -, rfl⟩ := hrow
    intro hv
    simp only [List.mem_map] at hv
    obtain ⟨p, -, hp⟩ := hv
    exact fillNaEmpty_ne_null _ hp
  · intro row hrow i hp hnum
    simp only [returnRefundDetails, List.mem_map] at hrow
    obtain ⟨r, -, rfl⟩ := hrow
    unfold projectRow
    rw [List.getD_eq_getElem?_getD, List.getElem?_map, List.getElem?_eq_getElem hp]
    simp only [Option.map_some', Option.getD_some]
    rw [if_pos (by simpa [List.get_eq_getElem] using hnum)]
    exact ⟨_, rfl⟩

/-- Claim C7 witness: at concrete tables the missing-income report is
null-free and the refund-detail columns are the present whitelist columns
in order. -/
theorem claim_C7_witness :
    noNullCells (missingIncomeReport oneOrder nullUserIncome) ∧
    (returnRefundDetails oneOrder nullUserIncome).cols =
      ["Order ID", "Refund ID", "Username (Buyer)"] :=
  ⟨(claim_C7_amended oneOrder nullUserIncome).1, by decide⟩

end EcomTools
